import Mathlib

/-!
Verification of the afya-guard fraud-detection backend.

This file shallowly embeds the scoring and validation logic of the
repository in Lean 4 and proves properties of it:

* `app/services/fraud_analyzer.py` — the orchestrator's module weights,
  composite-score formula, status thresholds, and module-fault isolation;
* `app/services/phantom_detector.py` — registry fail-open behaviour and
  the phantom-patient score/`is_high_risk` invariants;
* `app/services/duplicate_detector.py` — exact/rolling duplicate logic;
* `app/services/claim_extractor.py` — benefit-line totals and `validate`.

Numbers that the Python code holds as `float`/`Decimal` are modelled as
`ℚ`; datetimes are modelled as integer epoch seconds (one day =
86400 s, `func.date` becomes flooring division by 86400); Python `None`
becomes `Option`.  Database query results and clock-dependent
sub-checks are passed in as explicit oracle inputs.  The `evidence`
payloads of fraud flags (record ids shown to reviewers) are not
modelled; each flag keeps its `type`, `severity`, `description` and
`score`.
-/

namespace AfyaGuard

/-- `ClaimStatus` from `app/models/enums_model.py` (the statuses the
analyzer can assign). -/
inductive ClaimStatus where
  | pending
  | processing
  | auto_approved
  | flagged_review
  | flagged_critical
  | approved
  | rejected
  | under_investigation
  deriving DecidableEq, Repr

/-- `FraudSeverity` from `app/models/enums_model.py`. -/
inductive FraudSeverity where
  | critical
  | high
  | medium
  | low
  deriving DecidableEq, Repr

/-- One fraud flag as appended by the detection modules: machine tag,
severity, human description and score contribution
(`evidence` payloads are not modelled). -/
structure FraudFlag where
  type : String
  severity : FraudSeverity
  description : String
  score : ℚ
  deriving DecidableEq, Repr

/-- The result dict a detection module hands to the orchestrator
(`module`, `risk_score`, `flags`, `is_high_risk`, plus the optional
`error` / `warning` keys some branches add). -/
structure ModuleResult where
  module : String
  risk_score : ℚ
  flags : List FraudFlag
  is_high_risk : Bool
  error : Option String := none
  warning : Option String := none
  deriving DecidableEq, Repr

/-- Python truthiness of an optional string: `None` and `""` are falsy. -/
def strPresent : Option String → Bool
  | none => false
  | some s => !(s == "")

/-! ### FraudAnalyzer (`app/services/fraud_analyzer.py`) -/

/-- `FraudAnalyzer.MODULE_WEIGHTS` (lines 26–32): fixed weights for the
weighted-average composite score, in dict insertion order. -/
def MODULE_WEIGHTS : List (String × ℚ) :=
  [("phantom_patient", 1), ("upcoding", 1), ("duplicate", 1),
   ("provider_risk", 1/2), ("ml_model", 7/10)]

/-- `results["modules"].get(mod_name, {}).get("risk_score", 0.0)`
(line 104): a missing module contributes score 0. -/
def moduleScore (modules : List (String × ModuleResult)) (name : String) : ℚ :=
  match modules.lookup name with
  | some r => r.risk_score
  | none => 0

/-- Python `round(x, 2)`: round to two decimal places (ties idealised
to round-half-up; no composite score the analyzer produces depends on
the tie rule). -/
def round2 (x : ℚ) : ℚ := (round (x * 100) : ℤ) / 100

/-- The accumulation loop of `FraudAnalyzer.analyze_claim`
(lines 99–107): weighted sum, weight total and running max of the
module scores, folded over `MODULE_WEIGHTS`. -/
def weightAccum (modules : List (String × ModuleResult)) : ℚ × ℚ × ℚ :=
  MODULE_WEIGHTS.foldl
    (fun (acc : ℚ × ℚ × ℚ) mw =>
      (acc.1 + moduleScore modules mw.1 * mw.2, acc.2.1 + mw.2,
       max acc.2.2 (moduleScore modules mw.1)))
    ((0 : ℚ), (0 : ℚ), (0 : ℚ))

/-- `composite_risk_score` of `FraudAnalyzer.analyze_claim`
(lines 109–113): `round(max(weighted_avg, max_score * 0.8), 2)` where
`weighted_avg` is `weighted_sum / weight_total` guarded by Python
truthiness of `weight_total`. -/
def compositeRiskScore (modules : List (String × ModuleResult)) : ℚ :=
  round2 (max
    (if (weightAccum modules).2.1 ≠ 0
     then (weightAccum modules).1 / (weightAccum modules).2.1 else 0)
    ((weightAccum modules).2.2 * (8/10)))

/-- `FraudAnalyzer._determine_status` (lines 166–174). -/
def determineStatus (risk_score : ℚ) : ClaimStatus :=
  if risk_score ≥ 80 then ClaimStatus.flagged_critical
  else if risk_score ≥ 60 then ClaimStatus.flagged_review
  else if risk_score < 40 then ClaimStatus.auto_approved
  else ClaimStatus.pending

/-- `FraudAnalyzer._error_module` (lines 154–162): the zero-score
result substituted for a module that raised. -/
def errorModule (name : String) (exc : String) : ModuleResult :=
  { module := name, risk_score := 0, flags := [],
    is_high_risk := false, error := some exc }

/-- One module slot after the orchestrator's fault boundary: each
`_run_*` wrapper (lines 130–152) catches any exception and returns
`_error_module`, and the `gather(..., return_exceptions=True)` loop
(lines 83–96) converts a leaked exception to the identical dict. -/
def runModule (name : String) (result : Except String ModuleResult) : ModuleResult :=
  match result with
  | Except.ok r => r
  | Except.error e => errorModule name e

/-- The join point of `analyze_claim` (lines 83–96): every module slot
is resolved independently through `runModule`. -/
def gatherModules (mods : List (String × Except String ModuleResult)) :
    List (String × ModuleResult) :=
  mods.map (fun p => (p.1, runModule p.1 p.2))

/-- The spec's composite formula, written from its words (§4.3 / C3):
`max(weighted_average, 0.8 × max_single_module_score)` with weights
duplicate = phantom = upcoding = 1, provider_risk = 0.5, ml = 0.7
over weight total 4.2, rounded to 2 decimal places. -/
def compositeSpecFormula (s1 s2 s3 s4 s5 : ℚ) : ℚ :=
  round2 (max ((s1 + s2 + s3 + s4 * (1/2) + s5 * (7/10)) / (42/10))
    ((8/10) * max s1 (max s2 (max s3 (max s4 s5)))))

/-! ### PhantomPatientDetector (`app/services/phantom_detector.py`) -/

/-- The JSON payload of a 200 response from the SHA member registry,
with the `data.get(..., default)` defaults of
`_verify_with_sha_registry` (lines 183–194). -/
structure RegistryPayload where
  exists_ : Bool := false
  is_deceased : Bool := false
  death_date : Option String := none
  gender : Option String := none
  date_of_birth : Option String := none
  county : Option String := none
  full_name : Option String := none
  deriving DecidableEq, Repr

/-- Outcome of the registry HTTP call: a response with a status code
and payload, or a raised network/timeout exception. -/
inductive RegistryOutcome where
  | response (status_code : Nat) (data : RegistryPayload)
  | exception (msg : String)
  deriving DecidableEq, Repr

/-- The dict `_verify_with_sha_registry` resolves to (fields read by
`analyze_claim`; the `error_message`/`error_code` diagnostics are not
modelled). -/
structure RegistryResult where
  exists_ : Bool
  is_deceased : Bool
  death_date : Option String := none
  gender : Option String := none
  date_of_birth : Option String := none
  county : Option String := none
  full_name : Option String := none
  api_error : Bool
  deriving DecidableEq, Repr

/-- The claim fields `PhantomPatientDetector` reads directly
(sub-checks that need the database or the clock are oracle inputs). -/
structure PhantomClaim where
  patient_sha_number : Option String := none
  patient_last_name : Option String := none
  patient_first_name : Option String := none
  deriving DecidableEq, Repr

/-- Result of `_check_geographic_impossibility` (database-backed;
supplied as an oracle input). -/
structure GeoResult where
  is_impossible : Bool
  description : String := ""
  deriving DecidableEq, Repr

/-- The four flag kinds `_check_medical_plausibility` can return
(lines 300–364); it returns at most one, first match wins. -/
inductive PlausType where
  | impossible_diagnosis
  | impossible_procedure
  | unlikely_procedure
  | age_mismatch
  deriving DecidableEq, Repr

/-- The `type` tag of each plausibility flag. -/
def PlausType.tag : PlausType → String
  | .impossible_diagnosis => "impossible_diagnosis"
  | .impossible_procedure => "impossible_procedure"
  | .unlikely_procedure => "unlikely_procedure"
  | .age_mismatch => "age_mismatch"

/-- The `severity` of each plausibility flag. -/
def PlausType.flagSeverity : PlausType → FraudSeverity
  | .impossible_diagnosis => FraudSeverity.critical
  | .impossible_procedure => FraudSeverity.critical
  | .unlikely_procedure => FraudSeverity.high
  | .age_mismatch => FraudSeverity.medium

/-- The `score` of each plausibility flag (35/35/25/20). -/
def PlausType.flagScore : PlausType → ℚ
  | .impossible_diagnosis => 35
  | .impossible_procedure => 35
  | .unlikely_procedure => 25
  | .age_mismatch => 20

/-- A `_check_medical_plausibility` result: its kind plus the rendered
description (the clock-dependent age computation makes the check an
oracle input of `analyze_claim`). -/
structure PlausResult where
  type : PlausType
  description : String := ""
  deriving DecidableEq, Repr

/-- Result shape of `_analyze_visit_frequency` (lines 368–405). -/
structure FreqResult where
  is_excessive : Bool
  count : Nat
  score : ℚ
  description : String
  deriving DecidableEq, Repr

/-- Does `needle` match the start of `hay`? (helper for Python
substring containment). -/
def charsStartWith : List Char → List Char → Bool
  | [], _ => true
  | _ :: _, [] => false
  | a :: as, b :: bs => a == b && charsStartWith as bs

/-- Does `needle` occur contiguously inside `hay`? -/
def charsContain (needle : List Char) : List Char → Bool
  | [] => charsStartWith needle []
  | c :: tl => charsStartWith needle (c :: tl) || charsContain needle tl

/-- Python `needle in haystack` on strings: substring containment. -/
def pyIn (needle haystack : String) : Bool :=
  charsContain needle.toList haystack.toList

namespace PhantomPatientDetector

/-- `_verify_with_sha_registry` (lines 158–207): unconfigured URL,
non-200 status, and raised exceptions all resolve to the safe default
`exists=True, api_error=True`; a 200 response is read with
`data.get` defaults. -/
def verify_with_sha_registry (url : Option String) (outcome : RegistryOutcome) :
    RegistryResult :=
  match url with
  | none => { exists_ := true, is_deceased := false, api_error := true }
  | some _ =>
    match outcome with
    | RegistryOutcome.exception _ =>
        { exists_ := true, is_deceased := false, api_error := true }
    | RegistryOutcome.response status_code data =>
        if status_code == 200 then
          { exists_ := data.exists_, is_deceased := data.is_deceased,
            death_date := data.death_date, gender := data.gender,
            date_of_birth := data.date_of_birth, county := data.county,
            full_name := data.full_name, api_error := false }
        else { exists_ := true, is_deceased := false, api_error := true }

/-- `_analyze_visit_frequency` (lines 368–405) as a function of the
30-day claim count the database reports (the branch without a `score`
key is modelled with score 0, which `analyze_claim` never reads). -/
def analyze_visit_frequency (count : Nat) : FreqResult :=
  if count > 50 then
    { is_excessive := true, count := count, score := 20,
      description := "SHA member has " ++ toString count ++
        " claims in the last 30 days (>50 is highly suspicious)" }
  else if count > 30 then
    { is_excessive := true, count := count, score := 15,
      description := "SHA member has " ++ toString count ++
        " claims in the last 30 days (>30 is suspicious)" }
  else { is_excessive := false, count := count, score := 0, description := "" }

/-- `_check_name_match` (lines 407–420): loose case-insensitive
substring containment of the claim last/first name in the registry
full name; inconclusive inputs return `true`. -/
def check_name_match (claim : PhantomClaim) (registry : RegistryResult) : Bool :=
  let registry_name := (registry.full_name.getD "").toLower
  let claim_last := ((claim.patient_last_name.getD "").toLower).trim
  let claim_first := ((claim.patient_first_name.getD "").toLower).trim
  if registry_name == "" || claim_last == "" then true
  else pyIn claim_last registry_name || pyIn claim_first registry_name

/-- `PhantomPatientDetector.analyze_claim` (lines 37–154).  The
database/clock-backed sub-checks enter as oracles: `geo` for
`_check_geographic_impossibility`, `plaus` for
`_check_medical_plausibility`, `visitCount` for the 30-day claim count
behind `_analyze_visit_frequency`. -/
def analyze_claim (claim : PhantomClaim) (url : Option String)
    (outcome : RegistryOutcome) (geo : GeoResult) (plaus : Option PlausResult)
    (visitCount : Nat) : ModuleResult :=
  if !strPresent claim.patient_sha_number then
    { module := "phantom_patient", risk_score := 50,
      flags := [
        { type := "missing_sha_number", severity := FraudSeverity.high,
          description := "Claim has no SHA member number — cannot verify patient",
          score := 50 }],
      is_high_risk := true }
  else
    let registry := verify_with_sha_registry url outcome
    let e1 : ℚ × List FraudFlag :=
      if !registry.exists_ then
        (40, [
          { type := "sha_number_not_found", severity := FraudSeverity.critical,
            description := "SHA member number not found in the SHA registry",
            score := 40 }])
      else (0, [])
    let e2 : ℚ × List FraudFlag :=
      if registry.is_deceased then
        (40, [
          { type := "deceased_member", severity := FraudSeverity.critical,
            description := "SHA member recorded as deceased on " ++
              registry.death_date.getD "unknown date",
            score := 40 }])
      else (0, [])
    let e3 : ℚ × List FraudFlag :=
      if geo.is_impossible then
        (30, [
          { type := "geographic_impossibility", severity := FraudSeverity.high,
            description := geo.description, score := 30 }])
      else (0, [])
    let e4 : ℚ × List FraudFlag :=
      match plaus with
      | some p =>
          (p.type.flagScore, [
            { type := p.type.tag, severity := p.type.flagSeverity,
              description := p.description, score := p.type.flagScore }])
      | none => (0, [])
    let freq := analyze_visit_frequency visitCount
    let e5 : ℚ × List FraudFlag :=
      if freq.is_excessive then
        (freq.score, [
          { type := "excessive_visits", severity := FraudSeverity.medium,
            description := freq.description, score := freq.score }])
      else (0, [])
    let e6 : ℚ × List FraudFlag :=
      if registry.exists_ && !registry.api_error then
        (if !check_name_match claim registry then
          (15, [
            { type := "name_mismatch_vs_registry", severity := FraudSeverity.medium,
              description :=
                "Patient name on claim does not match SHA registry record",
              score := 15 }])
        else (0, []))
      else (0, [])
    let risk_score := e1.1 + e2.1 + e3.1 + e4.1 + e5.1 + e6.1
    { module := "phantom_patient", risk_score := min 100 risk_score,
      flags := e1.2 ++ e2.2 ++ e3.2 ++ e4.2 ++ e5.2 ++ e6.2,
      is_high_risk := decide (70 ≤ risk_score) }

end PhantomPatientDetector

/-! ### DuplicateDetector (`app/services/duplicate_detector.py`)

The detector's SQL queries over the `claims` table are modelled as
filters over a list `db` of persisted claims.  SQL three-valued logic
is kept: a comparison against a NULL column is false (`sqlEq`,
`sqlGe`, …), and `func.date` on an epoch-seconds timestamp is flooring
division by 86400. -/

/-- A benefit line as the duplicate detector reads it (only
`preauth_no` is consulted). -/
structure DupBenefitLine where
  preauth_no : Option String := none
  deriving DecidableEq, Repr

/-- The persisted-claim columns `DuplicateDetector` queries. -/
structure DupClaim where
  id : Nat
  patient_sha_number : Option String := none
  visit_admission_date : Option Int := none
  discharge_date : Option Int := none
  provider_id : Nat := 0
  total_claim_amount : Option ℚ := none
  visit_type : Option String := none
  benefit_lines : List DupBenefitLine := []
  deriving DecidableEq, Repr

/-- SQL `col == value` on a nullable column: NULL never matches. -/
def sqlEq {α : Type} [BEq α] : Option α → Option α → Bool
  | some x, some y => x == y
  | _, _ => false

/-- SQL `col >= bound` on a nullable column. -/
def sqlGe (a : Option Int) (b : Int) : Bool :=
  match a with
  | some x => decide (b ≤ x)
  | none => false

/-- SQL `col <= bound` on a nullable column. -/
def sqlLe (a : Option Int) (b : Int) : Bool :=
  match a with
  | some x => decide (x ≤ b)
  | none => false

/-- SQL `col < bound` on a nullable column. -/
def sqlLt (a : Option Int) (b : Int) : Bool :=
  match a with
  | some x => decide (x < b)
  | none => false

/-- SQL `col > bound` on a nullable column. -/
def sqlGt (a : Option Int) (b : Int) : Bool :=
  match a with
  | some x => decide (b < x)
  | none => false

/-- SQL `func.date(col) == func.date(value)`: calendar-day equality of
epoch-second timestamps. -/
def sqlDateEq (a : Option Int) (b : Int) : Bool :=
  match a with
  | some x => Int.fdiv x 86400 == Int.fdiv b 86400
  | none => false

namespace DuplicateDetector

/-- The exact-duplicate query (lines 40–49): another claim with the
same SHA number, admission date and claim total. -/
def exact_duplicates (db : List DupClaim) (claim : DupClaim) : List DupClaim :=
  db.filter (fun c =>
    (c.id != claim.id) &&
    sqlEq c.patient_sha_number claim.patient_sha_number &&
    sqlEq c.visit_admission_date claim.visit_admission_date &&
    sqlEq c.total_claim_amount claim.total_claim_amount)

/-- The rolling-duplicate query (lines 71–84): same SHA number,
provider and amount within ±2 days (`adm` is the claim's admission
timestamp, guaranteed present by the guard). -/
def rolling_duplicates (db : List DupClaim) (claim : DupClaim) (adm : Int) :
    List DupClaim :=
  db.filter (fun c =>
    (c.id != claim.id) &&
    sqlEq c.patient_sha_number claim.patient_sha_number &&
    (c.provider_id == claim.provider_id) &&
    sqlEq c.total_claim_amount claim.total_claim_amount &&
    sqlGe c.visit_admission_date (adm - 172800) &&
    sqlLe c.visit_admission_date (adm + 172800))

/-- The same-day multi-facility query (lines 105–115). -/
def same_day_other_providers (db : List DupClaim) (claim : DupClaim) (adm : Int) :
    List DupClaim :=
  db.filter (fun c =>
    (c.id != claim.id) &&
    sqlEq c.patient_sha_number claim.patient_sha_number &&
    (c.provider_id != claim.provider_id) &&
    sqlDateEq c.visit_admission_date adm)

/-- The overlapping-inpatient-stays query (lines 144–156); `ilike` is
case-insensitive comparison, and NULL columns never match. -/
def overlapping_stays (db : List DupClaim) (claim : DupClaim) (adm dis : Int) :
    List DupClaim :=
  db.filter (fun c =>
    (c.id != claim.id) &&
    sqlEq c.patient_sha_number claim.patient_sha_number &&
    (match c.visit_type with
     | some vt => vt.toLower == "inpatient"
     | none => false) &&
    !c.discharge_date.isNone &&
    sqlLt c.visit_admission_date dis &&
    sqlGt c.discharge_date adm)

/-- The set comprehension of truthy `preauth_no` values over the
claim's benefit lines (lines 179–183); the Python `set` is modelled as
the first-occurrence deduplicated list. -/
def claim_preauth_numbers (claim : DupClaim) : List String :=
  (claim.benefit_lines.filterMap (fun l =>
    match l.preauth_no with
    | some p => if p == "" then none else some p
    | none => none)).eraseDups

/-- `Claim.benefit_lines.cast(str).contains(p)` (line 192), modelled
as substring containment over the serialised preauth fields of the
stored claim's benefit lines. -/
def benefit_lines_contain (c : DupClaim) (p : String) : Bool :=
  c.benefit_lines.any (fun l => pyIn p (l.preauth_no.getD ""))

/-- The per-preauth conflict loop (lines 185–215): first preauth
number that appears on another claim contributes 70 points and one
flag, then the loop breaks. -/
def preauth_scan (db : List DupClaim) (claimId : Nat) :
    List String → ℚ × List FraudFlag
  | [] => (0, [])
  | p :: rest =>
    let conflicts := db.filter (fun c =>
      (c.id != claimId) && benefit_lines_contain c p)
    if !conflicts.isEmpty then
      (70, [
        { type := "reused_preauth_number", severity := FraudSeverity.high,
          description := "Preauthorisation number " ++ p ++ " already used in " ++
            toString conflicts.length ++ " other claim(s)",
          score := 70 }])
    else preauth_scan db claimId rest

/-- `DuplicateDetector.analyze_claim` (lines 23–222): guard on
SHA number and admission date, then the five checks, score capped at
100, `is_high_risk` at raw score ≥ 60. -/
def analyze_claim (db : List DupClaim) (claim : DupClaim) : ModuleResult :=
  match claim.visit_admission_date with
  | none =>
      { module := "duplicate", risk_score := 0, flags := [],
        is_high_risk := false,
        warning := some "Insufficient patient/date data for duplicate check" }
  | some adm =>
    if !strPresent claim.patient_sha_number then
      { module := "duplicate", risk_score := 0, flags := [],
        is_high_risk := false,
        warning := some "Insufficient patient/date data for duplicate check" }
    else
      let exacts := exact_duplicates db claim
      let e1 : ℚ × List FraudFlag :=
        if !exacts.isEmpty then
          (100, [
            { type := "exact_duplicate", severity := FraudSeverity.critical,
              description := "Found " ++ toString exacts.length ++
                " exact matching claim(s) for same SHA member, admission date, and claim amount",
              score := 100 }])
        else (0, [])
      let e2 : ℚ × List FraudFlag :=
        if exacts.isEmpty then
          let rolling := rolling_duplicates db claim adm
          if !rolling.isEmpty then
            (80, [
              { type := "rolling_duplicate", severity := FraudSeverity.high,
                description :=
                  "Near-identical claim found for same SHA member and provider within a 2-day window",
                score := 80 }])
          else (0, [])
        else (0, [])
      let sameDay := same_day_other_providers db claim adm
      let e3 : ℚ × List FraudFlag :=
        if !sameDay.isEmpty then
          (60, [
            { type := "same_day_multi_facility", severity := FraudSeverity.high,
              description := "SHA member billed at " ++
                toString (sameDay.length + 1) ++
                " different facilities on the same admission date",
              score := 60 }])
        else (0, [])
      let e4 : ℚ × List FraudFlag :=
        if (claim.visit_type.getD "").toLower == "inpatient" then
          match claim.discharge_date with
          | some dis =>
            let overlapping := overlapping_stays db claim adm dis
            if !overlapping.isEmpty then
              (85, [
                { type := "overlapping_inpatient_stays",
                  severity := FraudSeverity.critical,
                  description :=
                    "SHA member has overlapping inpatient admission periods — physically impossible",
                  score := 85 }])
            else (0, [])
          | none => (0, [])
        else (0, [])
      let e5 := preauth_scan db claim.id (claim_preauth_numbers claim)
      let risk_score := e1.1 + e2.1 + e3.1 + e4.1 + e5.1
      { module := "duplicate", risk_score := min risk_score 100,
        flags := e1.2 ++ e2.2 ++ e3.2 ++ e4.2 ++ e5.2,
        is_high_risk := decide (60 ≤ risk_score) }

end DuplicateDetector

/-! ### SHAClaimExtractor (`app/services/claim_extractor.py`)

Parsed `Decimal` amounts are `ℚ`; a benefit-line dict key that is
absent or holds `None` is `none` (the `isinstance(..., Decimal)` test
of `_compute_benefit_totals` is `Option.isSome`).  Amounts rendered
into error strings use `ℚ`'s `toString` in place of `Decimal`'s. -/

/-- A parsed Section-14 benefit line (the fields `validate` and
`_compute_benefit_totals` read). -/
structure ExtractorBenefitLine where
  bill_amount : Option ℚ := none
  claim_amount : Option ℚ := none
  preauth_no : Option String := none
  deriving DecidableEq, Repr

/-- The `SHAClaimData` fields consumed by `validate` and
`_compute_benefit_totals`; every field defaults to `None` as in the
Python constructor (lines 30–97). -/
structure SHAClaimData where
  provider_id : Option String := none
  provider_name : Option String := none
  sha_number : Option String := none
  visit_type : Option String := none
  visit_admission_date : Option Int := none
  discharge_date : Option Int := none
  procedure_date : Option Int := none
  accommodation_type : Option String := none
  patient_disposition : Option String := none
  icd11_code : Option String := none
  was_referred : Option Bool := none
  referral_provider : Option String := none
  benefit_lines : List ExtractorBenefitLine := []
  total_bill_amount : Option ℚ := none
  total_claim_amount : Option ℚ := none
  deriving DecidableEq, Repr

/-- `VALID_VISIT_TYPES` (line 233). -/
def VALID_VISIT_TYPES : List String :=
  ["inpatient", "outpatient", "day-care", "day care"]

/-- `VALID_DISPOSITIONS` (lines 234–242). -/
def VALID_DISPOSITIONS : List String :=
  ["improved", "recovered", "lama", "leave against medical advice",
   "discharged against medical advice", "absconded", "died"]

/-- `VALID_ACCOMMODATION_TYPES` (lines 243–257). -/
def VALID_ACCOMMODATION_TYPES : List String :=
  ["female medical", "male medical", "female surgical", "male surgical",
   "gynaecology", "maternity", "nbu", "psychiatric unit", "burns",
   "icu", "hdu", "nicu", "isolation"]

/-- Uppercase ASCII letter. -/
def isUpperAZ (c : Char) : Bool := decide ('A' ≤ c) && decide (c ≤ 'Z')

/-- ASCII digit. -/
def isDigit09 (c : Char) : Bool := decide ('0' ≤ c) && decide (c ≤ '9')

/-- Uppercase ASCII letter or digit (the `[A-Z0-9]` class). -/
def isUpperAlnum (c : Char) : Bool := isUpperAZ c || isDigit09 c

/-- ASCII letter of either case. -/
def isAlphaAnyCase (c : Char) : Bool :=
  isUpperAZ c || (decide ('a' ≤ c) && decide (c ≤ 'z'))

namespace SHAClaimExtractor

/-- `_compute_benefit_totals` (lines 555–572).  The totals start from
the constructor's `None` defaults (nothing else in the extractor
writes them), so the function is the pair of totals computed from the
benefit lines: a total is set only when at least one line carried a
parsed amount of that kind. -/
structure TotalsAcc where
  total_bill : ℚ
  total_claim : ℚ
  has_bill : Bool
  has_claim : Bool
  deriving DecidableEq, Repr

/-- One iteration of the `_compute_benefit_totals` loop. -/
def totalsStep (acc : TotalsAcc) (line : ExtractorBenefitLine) : TotalsAcc :=
  let acc1 :=
    match line.bill_amount with
    | some b => { acc with total_bill := acc.total_bill + b, has_bill := true }
    | none => acc
  match line.claim_amount with
  | some c => { acc1 with total_claim := acc1.total_claim + c, has_claim := true }
  | none => acc1

/-- The `(total_bill_amount, total_claim_amount)` pair
`_compute_benefit_totals` leaves on the claim. -/
def compute_benefit_totals (lines : List ExtractorBenefitLine) :
    Option ℚ × Option ℚ :=
  let r := lines.foldl totalsStep ⟨0, 0, false, false⟩
  (if r.has_bill then some r.total_bill else none,
   if r.has_claim then some r.total_claim else none)

/-- The regex `^[A-Z][A-Z0-9]{1,5}(?:\.[A-Z0-9]{1,4})*$` of the
ICD-11 format check (lines 845–847), decomposed on the dots. -/
def icd11_format_ok (s : String) : Bool :=
  match s.splitOn "." with
  | [] => false
  | seg0 :: rest =>
    (match seg0.toList with
     | [] => false
     | c0 :: tl =>
         isUpperAZ c0 && decide (1 ≤ tl.length) && decide (tl.length ≤ 5) &&
           tl.all isUpperAlnum) &&
    rest.all (fun seg =>
      decide (1 ≤ seg.toList.length) && decide (seg.toList.length ≤ 4) &&
        seg.toList.all isUpperAlnum)

/-- The regex `^[A-Z0-9\-]{5,20}$` with `re.IGNORECASE` of the SHA
number format check (line 854). -/
def sha_format_ok (s : String) : Bool :=
  decide (5 ≤ s.toList.length) && decide (s.toList.length ≤ 20) &&
    s.toList.all (fun c => isAlphaAnyCase c || isDigit09 c || c == '-')

/-- The per-line loop of `validate` (lines 865–879), with
`enumerate(..., start=1)` line numbers. -/
def benefit_line_errors (i : Nat) : List ExtractorBenefitLine → List String
  | [] => []
  | line :: rest =>
    (match line.bill_amount, line.claim_amount with
     | some bill, some clm =>
       (if clm > bill then
         ["Benefit line " ++ toString i ++ ": claim_amount (" ++ toString clm ++
           ") exceeds bill_amount (" ++ toString bill ++ ") – fraud signal"]
        else []) ++
       (if clm ≤ 0 then
         ["Benefit line " ++ toString i ++ ": claim_amount must be > 0"]
        else [])
     | _, _ => []) ++
    (if !strPresent line.preauth_no then
      ["Benefit line " ++ toString i ++
        ": missing preauth_no – required for claim processing"]
     else []) ++
    benefit_line_errors (i + 1) rest

/-- The required-field block of `validate` (lines 785–795), in dict
insertion order. -/
def requiredErrors (claim : SHAClaimData) : List String :=
  (if !strPresent claim.provider_id then
    ["Missing required field: Provider Identification Number (Part I, Field 1)"]
   else []) ++
  (if !strPresent claim.provider_name then
    ["Missing required field: Name of Health Care Provider (Part I, Field 2)"]
   else []) ++
  (if !strPresent claim.sha_number then
    ["Missing required field: Social Health Authority Number (Part II, Field 3)"]
   else []) ++
  (if claim.visit_admission_date.isNone then
    ["Missing required field: Visit/Admission Date (Part III)"]
   else []) ++
  (if !strPresent claim.visit_type then
    ["Missing required field: Visit Type – Inpatient/Outpatient/Day-care (Part III)"]
   else [])

/-- The visit-type enum check of `validate` (lines 797–802). -/
def visitTypeErrors (claim : SHAClaimData) : List String :=
  if strPresent claim.visit_type &&
      !VALID_VISIT_TYPES.contains ((claim.visit_type.getD "").toLower) then
    ["Invalid visit_type '" ++ claim.visit_type.getD "" ++
      "'. Must be one of: " ++ String.intercalate ", " VALID_VISIT_TYPES]
  else []

/-- The accommodation-type enum check of `validate` (lines 804–812);
the message joins the sorted valid set. -/
def accommodationErrors (claim : SHAClaimData) : List String :=
  if strPresent claim.accommodation_type &&
      !VALID_ACCOMMODATION_TYPES.contains
        ((claim.accommodation_type.getD "").toLower) then
    ["Unrecognised accommodation_type '" ++ claim.accommodation_type.getD "" ++
      "'. Valid types: " ++ String.intercalate ", "
        ["burns", "female medical", "female surgical", "gynaecology",
         "hdu", "icu", "isolation", "male medical", "male surgical",
         "maternity", "nbu", "nicu", "psychiatric unit"]]
  else []

/-- The disposition enum check of `validate` (lines 814–821). -/
def dispositionErrors (claim : SHAClaimData) : List String :=
  if strPresent claim.patient_disposition &&
      !VALID_DISPOSITIONS.contains
        ((claim.patient_disposition.getD "").toLower) then
    ["Unrecognised patient_disposition '" ++
      claim.patient_disposition.getD "" ++ "'"]
  else []

/-- The admission/discharge date logic of `validate` (lines 823–835);
`timedelta.days` is flooring division by 86400 s. -/
def dateErrors (claim : SHAClaimData) : List String :=
  match claim.visit_admission_date, claim.discharge_date with
  | some adm, some dis =>
    (if dis < adm then
      ["discharge_date cannot be before visit_admission_date (potential fraud signal)"]
     else []) ++
    (if Int.fdiv (dis - adm) 86400 > 180 then
      ["Length of stay is " ++ toString (Int.fdiv (dis - adm) 86400) ++
        " days – flagged for manual review"]
     else [])
  | _, _ => []

/-- The procedure-date check of `validate` (lines 837–841). -/
def procErrors (claim : SHAClaimData) : List String :=
  match claim.procedure_date, claim.visit_admission_date with
  | some procDate, some adm =>
    if procDate < adm then
      ["procedure_date is before admission date (potential fraud signal)"]
    else []
  | _, _ => []

/-- The ICD-11 format check of `validate` (lines 843–850). -/
def icdErrors (claim : SHAClaimData) : List String :=
  if strPresent claim.icd11_code &&
      !icd11_format_ok (claim.icd11_code.getD "") then
    ["icd11_code '" ++ claim.icd11_code.getD "" ++
      "' does not match expected ICD-11 format"]
  else []

/-- The SHA-number format check of `validate` (lines 852–857). -/
def shaErrors (claim : SHAClaimData) : List String :=
  if strPresent claim.sha_number && !sha_format_ok (claim.sha_number.getD "") then
    ["sha_number '" ++ claim.sha_number.getD "" ++
      "' does not match expected format"]
  else []

/-- The benefit-lines block of `validate` (lines 859–879): an empty
table is itself an error, otherwise each line is checked. -/
def benefitErrors (claim : SHAClaimData) : List String :=
  if claim.benefit_lines.isEmpty then
    ["No benefit lines found in Section 14 (SHA Health Benefits table)"]
  else benefit_line_errors 1 claim.benefit_lines

/-- The aggregate claim-vs-bill totals check of `validate`
(lines 881–887). -/
def totalsErrors (claim : SHAClaimData) : List String :=
  match claim.total_claim_amount, claim.total_bill_amount with
  | some tc, some tb =>
    if tc > tb then
      ["Total claim amount (" ++ toString tc ++
        ") exceeds total bill amount (" ++ toString tb ++
        ") – potential overbilling"]
    else []
  | _, _ => []

/-- The referral-consistency check of `validate` (lines 889–893). -/
def referralErrors (claim : SHAClaimData) : List String :=
  if claim.was_referred == some true && !strPresent claim.referral_provider then
    ["Patient marked as referred but no referring provider recorded (Field 7)"]
  else []

/-- The full error list `validate` accumulates, in source order. -/
def validateErrors (claim : SHAClaimData) : List String :=
  requiredErrors claim ++ visitTypeErrors claim ++
    accommodationErrors claim ++ dispositionErrors claim ++ dateErrors claim ++
    procErrors claim ++ icdErrors claim ++ shaErrors claim ++
    benefitErrors claim ++ totalsErrors claim ++ referralErrors claim

/-- `SHAClaimExtractor.validate` (lines 776–895): every check runs,
errors accumulate in source order, and the claim is valid exactly when
no error was collected. -/
def validate (claim : SHAClaimData) : Bool × List String :=
  ((validateErrors claim).isEmpty, validateErrors claim)

end SHAClaimExtractor

/-- A registry failure in the sense of C6: network/timeout exception,
non-200 HTTP response, or unconfigured registry URL. -/
def RegistryFailed (url : Option String) (outcome : RegistryOutcome) : Prop :=
  url = none ∨ (∃ m, outcome = RegistryOutcome.exception m) ∨
    (∃ c d, outcome = RegistryOutcome.response c d ∧ c ≠ 200)

/-! ### Concrete fixtures for the witness theorems -/

/-- A healthy module result used in witnesses. -/
def okUpcoding : ModuleResult :=
  { module := "upcoding", risk_score := 5, flags := [], is_high_risk := false }

/-- A module map in which the phantom module raised. -/
def sampleMods : List (String × Except String ModuleResult) :=
  [("phantom_patient", Except.error "boom"), ("upcoding", Except.ok okUpcoding)]

/-- A persisted claim for the duplicate-scenario witness. -/
def dupClaimA : DupClaim :=
  { id := 1, patient_sha_number := some "SHA001",
    visit_admission_date := some 1736467200, provider_id := 7,
    total_claim_amount := some 5000 }

/-- A second persisted claim sharing SHA number, admission date and
claim total with `dupClaimA`. -/
def dupClaimB : DupClaim :=
  { id := 2, patient_sha_number := some "SHA001",
    visit_admission_date := some 1736467200, provider_id := 7,
    total_claim_amount := some 5000 }

/-- The stored-claims table for the duplicate-scenario witness. -/
def dupDb : List DupClaim := [dupClaimB]

/-! ## Theorems -/

/-- Helper: Python `round(·, 2)` is monotone. -/
theorem round2_mono {x y : ℚ} (h : x ≤ y) : round2 x ≤ round2 y := by
  unfold round2
  have hr : round (x * 100) ≤ round (y * 100) := by
    rw [round_eq, round_eq]
    exact Int.floor_mono (by linarith)
  have hc : ((round (x * 100) : ℤ) : ℚ) ≤ ((round (y * 100) : ℤ) : ℚ) :=
    Int.cast_le.mpr hr
  exact div_le_div_of_nonneg_right hc (by norm_num)

set_option maxHeartbeats 1000000 in
/-- Helper: the accumulation loop of `analyze_claim`, evaluated over
the five fixed `MODULE_WEIGHTS` entries. -/
theorem weightAccum_eq (modules : List (String × ModuleResult)) :
    weightAccum modules =
      (moduleScore modules "phantom_patient" + moduleScore modules "upcoding" +
        moduleScore modules "duplicate" + moduleScore modules "provider_risk" * (1/2) +
        moduleScore modules "ml_model" * (7/10), 21/5,
       max (max (max (max (max 0 (moduleScore modules "phantom_patient"))
         (moduleScore modules "upcoding")) (moduleScore modules "duplicate"))
         (moduleScore modules "provider_risk")) (moduleScore modules "ml_model")) := by
  simp only [weightAccum, MODULE_WEIGHTS, List.foldl_cons, List.foldl_nil]
  norm_num

/-- Helper: the weighted sum accumulated by `analyze_claim`. -/
theorem weightAccum_ws (modules : List (String × ModuleResult)) :
    (weightAccum modules).1 =
      moduleScore modules "phantom_patient" + moduleScore modules "upcoding" +
        moduleScore modules "duplicate" + moduleScore modules "provider_risk" * (1/2) +
        moduleScore modules "ml_model" * (7/10) := by
  rw [weightAccum_eq]

/-- Helper: the accumulated weight total is 4.2. -/
theorem weightAccum_wt (modules : List (String × ModuleResult)) :
    (weightAccum modules).2.1 = 21/5 := by
  rw [weightAccum_eq]

/-- Helper: the accumulated running maximum (seeded with 0). -/
theorem weightAccum_mx (modules : List (String × ModuleResult)) :
    (weightAccum modules).2.2 =
      max (max (max (max (max 0 (moduleScore modules "phantom_patient"))
        (moduleScore modules "upcoding")) (moduleScore modules "duplicate"))
        (moduleScore modules "provider_risk")) (moduleScore modules "ml_model") := by
  rw [weightAccum_eq]

/-- Helper: closed form of the composite risk score. -/
theorem compositeRiskScore_eq (modules : List (String × ModuleResult)) :
    compositeRiskScore modules =
      round2 (max
        ((moduleScore modules "phantom_patient" + moduleScore modules "upcoding" +
          moduleScore modules "duplicate" + moduleScore modules "provider_risk" * (1/2) +
          moduleScore modules "ml_model" * (7/10)) / (21/5))
        (max (max (max (max (max 0 (moduleScore modules "phantom_patient"))
          (moduleScore modules "upcoding")) (moduleScore modules "duplicate"))
          (moduleScore modules "provider_risk")) (moduleScore modules "ml_model") * (8/10))) := by
  unfold compositeRiskScore
  rw [weightAccum_ws, weightAccum_wt, weightAccum_mx]
  rw [if_pos (show ((21 : ℚ)/5) ≠ 0 by norm_num)]

/-- C1 (counterexample): the claim asserts composite score 39.9 maps
to `pending`; `_determine_status` maps 39.9 (which is `< 40`) to
`auto_approved`, not `pending`. -/
theorem c1_counterexample :
    determineStatus (399/10) = ClaimStatus.auto_approved ∧
      determineStatus (399/10) ≠ ClaimStatus.pending := by
  have h : determineStatus (399/10) = ClaimStatus.auto_approved := by
    unfold determineStatus
    norm_num
  exact ⟨h, by rw [h]; exact fun hc => ClaimStatus.noConfusion hc⟩

/-- C1 (amended): at the documented boundaries `_determine_status`
yields 79.9 → `flagged_review`, 80.0 → `flagged_critical`,
39.9 → `auto_approved` (per the `<40` rule), and 40.0 → `pending`. -/
theorem c1_status_boundaries :
    determineStatus (799/10) = ClaimStatus.flagged_review ∧
    determineStatus 80 = ClaimStatus.flagged_critical ∧
    determineStatus (399/10) = ClaimStatus.auto_approved ∧
    determineStatus 40 = ClaimStatus.pending := by
  refine ⟨?_, ?_, ?_, ?_⟩ <;> (unfold determineStatus; norm_num)

/-- C2: for every composite score `s`, the derived status is
`flagged_critical` iff `s ≥ 80`, `flagged_review` iff `60 ≤ s < 80`,
`auto_approved` iff `s < 40`, and `pending` iff `40 ≤ s < 60`. -/
theorem c2_status_thresholds (s : ℚ) :
    (determineStatus s = ClaimStatus.flagged_critical ↔ 80 ≤ s) ∧
    (determineStatus s = ClaimStatus.flagged_review ↔ 60 ≤ s ∧ s < 80) ∧
    (determineStatus s = ClaimStatus.auto_approved ↔ s < 40) ∧
    (determineStatus s = ClaimStatus.pending ↔ 40 ≤ s ∧ s < 60) := by
  unfold determineStatus
  split_ifs with h1 h2 h3 <;>
    refine ⟨?_, ?_, ?_, ?_⟩ <;>
      constructor <;> intro hx <;>
        first
          | rfl
          | (exfalso; revert hx; simp; intros; try constructor) <;> linarith
          | (constructor <;> linarith)
          | linarith
          | (exact absurd hx (by intro hy; cases hy))

/-- C3: for every set of module results (with nonnegative risk scores,
a missing module contributing 0), the orchestrator's
`composite_risk_score` equals the spec's
`max(weighted_average, 0.8 × max_single_module_score)` with fixed
weights 1/1/1/0.5/0.7 over weight total 4.2, rounded to 2 decimals. -/
theorem c3_composite_formula (modules : List (String × ModuleResult))
    (h1 : 0 ≤ moduleScore modules "phantom_patient")
    (h2 : 0 ≤ moduleScore modules "upcoding")
    (h3 : 0 ≤ moduleScore modules "duplicate")
    (h4 : 0 ≤ moduleScore modules "provider_risk")
    (h5 : 0 ≤ moduleScore modules "ml_model") :
    compositeRiskScore modules =
      compositeSpecFormula (moduleScore modules "phantom_patient")
        (moduleScore modules "upcoding") (moduleScore modules "duplicate")
        (moduleScore modules "provider_risk") (moduleScore modules "ml_model") := by
  rw [compositeRiskScore_eq]
  unfold compositeSpecFormula
  congr 1
  congr 1
  · norm_num
  · rw [max_eq_right h1, mul_comm]
    simp [max_assoc]

/-- Witness for C3 at the empty module map (every score 0). -/
theorem c3_composite_formula_witness :
    0 ≤ moduleScore [] "phantom_patient" ∧
    compositeRiskScore [] =
      compositeSpecFormula (moduleScore [] "phantom_patient")
        (moduleScore [] "upcoding") (moduleScore [] "duplicate")
        (moduleScore [] "provider_risk") (moduleScore [] "ml_model") :=
  ⟨by simp [moduleScore], c3_composite_formula [] (by simp [moduleScore])
    (by simp [moduleScore]) (by simp [moduleScore]) (by simp [moduleScore])
    (by simp [moduleScore])⟩

/-- C4: the composite score is monotone in each module's
`risk_score` — raising one module's score while the rest of the module
map is unchanged never decreases `composite_risk_score`. -/
theorem c4_composite_monotone (rest : List (String × ModuleResult)) (name : String)
    (r1 r2 : ModuleResult) (h : r1.risk_score ≤ r2.risk_score) :
    compositeRiskScore ((name, r1) :: rest) ≤
      compositeRiskScore ((name, r2) :: rest) := by
  have hs : ∀ n, moduleScore ((name, r1) :: rest) n ≤
      moduleScore ((name, r2) :: rest) n := by
    intro n
    simp only [moduleScore, List.lookup]
    cases hn : (n == name)
    · simp only [hn]
      exact le_refl _
    · simp only [hn]
      exact h
  rw [compositeRiskScore_eq, compositeRiskScore_eq]
  apply round2_mono
  gcongr <;> exact hs _

/-- Witness for C4: raising the duplicate module's score from 10 to
20. -/
theorem c4_composite_monotone_witness :
    ({ module := "duplicate", risk_score := 10, flags := [],
        is_high_risk := false } : ModuleResult).risk_score ≤
      ({ module := "duplicate", risk_score := 20, flags := [],
          is_high_risk := false } : ModuleResult).risk_score ∧
    compositeRiskScore [("duplicate",
        { module := "duplicate", risk_score := 10, flags := [],
          is_high_risk := false })] ≤
      compositeRiskScore [("duplicate",
        { module := "duplicate", risk_score := 20, flags := [],
          is_high_risk := false })] :=
  ⟨by norm_num, c4_composite_monotone [] "duplicate" _ _ (by norm_num)⟩

/-- Helper: each gathered module slot is its own input resolved through
the fault boundary, independent of every other slot. -/
theorem lookup_gatherModules (mods : List (String × Except String ModuleResult))
    (n : String) :
    (gatherModules mods).lookup n = (mods.lookup n).map (runModule n) := by
  induction mods with
  | nil => rfl
  | cons p rest ih =>
    cases p with
    | mk k v =>
      simp only [gatherModules, List.map, List.lookup] at ih ⊢
      cases hn : (n == k)
      · simp only [hn]
        exact ih
      · have hk : n = k := by simpa using hn
        subst hk
        simp only [hn, Option.map]

/-- C5: if a rule-based module raises, `analyze_claim` records for it
exactly the zero-score result with empty flags, `is_high_risk = false`
and the exception text in `error`; and every module slot (so every
sibling) is a function of its own module outcome alone. -/
theorem c5_module_fault_isolation (mods : List (String × Except String ModuleResult))
    (n : String) (e : String) (h : mods.lookup n = some (Except.error e)) :
    (gatherModules mods).lookup n =
      some { module := n, risk_score := 0, flags := [], is_high_risk := false,
             error := some e } ∧
    ∀ m, (gatherModules mods).lookup m = (mods.lookup m).map (runModule m) := by
  refine ⟨?_, fun m => lookup_gatherModules mods m⟩
  rw [lookup_gatherModules, h]
  rfl

/-- Witness for C5: the phantom module raised `"boom"`, the upcoding
module succeeded. -/
theorem c5_module_fault_isolation_witness :
    (sampleMods.lookup "phantom_patient" = some (Except.error "boom")) ∧
    ((gatherModules sampleMods).lookup "phantom_patient" =
      some { module := "phantom_patient", risk_score := 0, flags := [],
             is_high_risk := false, error := some "boom" } ∧
     ∀ m, (gatherModules sampleMods).lookup m =
        (sampleMods.lookup m).map (runModule m)) :=
  ⟨by rfl, c5_module_fault_isolation sampleMods "phantom_patient" "boom" (by rfl)⟩


/-- C6: for every registry failure (exception, non-200 response, or
unconfigured URL) the phantom detector's registry lookup resolves to
`exists=True, api_error=True`, and the analysis result carries neither
the 40-point `sha_number_not_found` flag nor the 15-point
`name_mismatch_vs_registry` flag. -/
theorem c6_registry_fail_open (url : Option String) (outcome : RegistryOutcome)
    (claim : PhantomClaim) (geo : GeoResult) (plaus : Option PlausResult)
    (visitCount : Nat) (h : RegistryFailed url outcome) :
    (PhantomPatientDetector.verify_with_sha_registry url outcome).exists_ = true ∧
    (PhantomPatientDetector.verify_with_sha_registry url outcome).api_error = true ∧
    ∀ f ∈ (PhantomPatientDetector.analyze_claim claim url outcome geo plaus
        visitCount).flags,
      f.type ≠ "sha_number_not_found" ∧ f.type ≠ "name_mismatch_vs_registry" := by
  have hreg : PhantomPatientDetector.verify_with_sha_registry url outcome =
      { exists_ := true, is_deceased := false, api_error := true } := by
    obtain h | ⟨m, rfl⟩ | ⟨c, d, rfl, hc⟩ := h
    · subst h
      rfl
    · cases url <;> rfl
    · cases url with
      | none => rfl
      | some u =>
        have hc' : (c == 200) = false := by
          simpa using hc
        simp [PhantomPatientDetector.verify_with_sha_registry, hc']
  refine ⟨by rw [hreg], by rw [hreg], ?_⟩
  intro f hf
  cases hsha : strPresent claim.patient_sha_number
  · simp only [PhantomPatientDetector.analyze_claim, hsha, Bool.not_false, if_true] at hf
    simp only [List.mem_singleton] at hf
    subst hf
    exact ⟨by decide, by decide⟩
  · simp only [PhantomPatientDetector.analyze_claim, hsha, Bool.not_true, if_false,
      hreg] at hf
    simp only [Bool.not_true, Bool.and_false, if_false, Bool.not_false] at hf
    simp at hf
    rcases hf with hf | hf | hf
    · cases hg : geo.is_impossible
      · simp [hg] at hf
      · simp [hg] at hf
        subst hf
        exact ⟨by simp, by simp⟩
    · cases plaus with
      | none => simp at hf
      | some p =>
        simp at hf
        subst hf
        refine ⟨?_, ?_⟩ <;> (cases hp : p.type <;> simp [PlausType.tag])
    · cases hfr : (PhantomPatientDetector.analyze_visit_frequency visitCount).is_excessive
      · simp [hfr] at hf
      · simp [hfr] at hf
        subst hf
        exact ⟨by simp, by simp⟩

/-- Witness for C6: the registry call times out on a claim with a
present membership number. -/
theorem c6_registry_fail_open_witness :
    RegistryFailed (some "https://registry.sha.go.ke")
      (RegistryOutcome.exception "timeout") ∧
    ((PhantomPatientDetector.verify_with_sha_registry (some "https://registry.sha.go.ke")
        (RegistryOutcome.exception "timeout")).exists_ = true ∧
     (PhantomPatientDetector.verify_with_sha_registry (some "https://registry.sha.go.ke")
        (RegistryOutcome.exception "timeout")).api_error = true ∧
     ∀ f ∈ (PhantomPatientDetector.analyze_claim { patient_sha_number := some "SHA001" }
        (some "https://registry.sha.go.ke") (RegistryOutcome.exception "timeout")
        { is_impossible := false } none 0).flags,
       f.type ≠ "sha_number_not_found" ∧ f.type ≠ "name_mismatch_vs_registry") :=
  ⟨Or.inr (Or.inl ⟨"timeout", rfl⟩),
   c6_registry_fail_open (some "https://registry.sha.go.ke")
     (RegistryOutcome.exception "timeout") { patient_sha_number := some "SHA001" }
     { is_impossible := false } none 0 (Or.inr (Or.inl ⟨"timeout", rfl⟩))⟩

/-- C7 (counterexample): a claim with no membership number returns the
fixed-score-50 result with `is_high_risk = true`, so `is_high_risk` is
not equivalent to `risk_score ≥ 70` for every analyzed claim. -/
theorem c7_counterexample :
    (PhantomPatientDetector.analyze_claim { patient_sha_number := none } none
      (RegistryOutcome.exception "down") { is_impossible := false } none 0).risk_score
        = 50 ∧
    (PhantomPatientDetector.analyze_claim { patient_sha_number := none } none
      (RegistryOutcome.exception "down") { is_impossible := false } none 0).is_high_risk
        = true ∧
    ¬(70 ≤ (PhantomPatientDetector.analyze_claim { patient_sha_number := none } none
      (RegistryOutcome.exception "down") { is_impossible := false } none 0).risk_score) := by
  refine ⟨rfl, rfl, ?_⟩
  have : (PhantomPatientDetector.analyze_claim { patient_sha_number := none } none
      (RegistryOutcome.exception "down") { is_impossible := false } none 0).risk_score
        = 50 := rfl
  rw [this]
  norm_num

/-- C7 (amended): every phantom result has `risk_score ≤ 100`; when the
membership number is present, `is_high_risk` holds exactly when the
reported risk score is at least 70; when it is missing, the result is
the fixed score 50 with `is_high_risk = true`. -/
theorem c7_phantom_invariants (claim : PhantomClaim) (url : Option String)
    (outcome : RegistryOutcome) (geo : GeoResult) (plaus : Option PlausResult)
    (visitCount : Nat) :
    (PhantomPatientDetector.analyze_claim claim url outcome geo plaus
      visitCount).risk_score ≤ 100 ∧
    (if strPresent claim.patient_sha_number then
      ((PhantomPatientDetector.analyze_claim claim url outcome geo plaus
          visitCount).is_high_risk = true ↔
        70 ≤ (PhantomPatientDetector.analyze_claim claim url outcome geo plaus
          visitCount).risk_score)
     else
      ((PhantomPatientDetector.analyze_claim claim url outcome geo plaus
          visitCount).risk_score = 50 ∧
       (PhantomPatientDetector.analyze_claim claim url outcome geo plaus
          visitCount).is_high_risk = true)) := by
  cases hsha : strPresent claim.patient_sha_number
  · simp only [PhantomPatientDetector.analyze_claim, hsha, Bool.not_false, if_true,
      if_false]
    norm_num
  · simp only [PhantomPatientDetector.analyze_claim, hsha, Bool.not_true,
      Bool.false_eq_true, if_false, if_true]
    constructor
    · exact min_le_left _ _
    · rw [decide_eq_true_iff]
      constructor
      · intro hr
        exact le_min (by norm_num) hr
      · intro hr
        exact le_trans hr (min_le_right _ _)

/-- Helper: the pre-authorisation scan contributes a nonnegative
score. -/
theorem preauth_scan_score_nonneg (db : List DupClaim) (cid : Nat)
    (ps : List String) : 0 ≤ (DuplicateDetector.preauth_scan db cid ps).1 := by
  induction ps with
  | nil => norm_num [DuplicateDetector.preauth_scan]
  | cons p rest ih =>
    simp only [DuplicateDetector.preauth_scan]
    split
    · norm_num
    · exact ih

/-- Helper: every flag the pre-authorisation scan emits has type
`reused_preauth_number`. -/
theorem preauth_scan_flag_types (db : List DupClaim) (cid : Nat)
    (ps : List String) :
    ∀ f ∈ (DuplicateDetector.preauth_scan db cid ps).2,
      f.type = "reused_preauth_number" := by
  induction ps with
  | nil =>
    intro f hf
    simp [DuplicateDetector.preauth_scan] at hf
  | cons p rest ih =>
    intro f hf
    simp only [DuplicateDetector.preauth_scan] at hf
    revert hf
    split
    · intro hf
      simp at hf
      subst hf
      rfl
    · exact fun hf => ih f hf

/-- C8: when another persisted claim shares the membership number,
admission date and claim total, the duplicate detector reports
`risk_score = 100` with an `exact_duplicate` flag, and no
`rolling_duplicate` flag is emitted (that check runs only when no
exact duplicate was found). -/
theorem c8_exact_duplicate (db : List DupClaim) (claim other : DupClaim)
    (s : String) (adm : Int) (amt : ℚ)
    (hmem : other ∈ db) (hid : other.id ≠ claim.id)
    (hc1 : claim.patient_sha_number = some s) (hs : s ≠ "")
    (ho1 : other.patient_sha_number = some s)
    (hc2 : claim.visit_admission_date = some adm)
    (ho2 : other.visit_admission_date = some adm)
    (hc3 : claim.total_claim_amount = some amt)
    (ho3 : other.total_claim_amount = some amt) :
    (DuplicateDetector.analyze_claim db claim).risk_score = 100 ∧
    (∃ f ∈ (DuplicateDetector.analyze_claim db claim).flags,
      f.type = "exact_duplicate") ∧
    (∀ f ∈ (DuplicateDetector.analyze_claim db claim).flags,
      f.type ≠ "rolling_duplicate") := by
  have hstr : strPresent claim.patient_sha_number = true := by
    rw [hc1]
    simp [strPresent, hs]
  have hpred : ((other.id != claim.id) &&
      sqlEq other.patient_sha_number claim.patient_sha_number &&
      sqlEq other.visit_admission_date claim.visit_admission_date &&
      sqlEq other.total_claim_amount claim.total_claim_amount) = true := by
    rw [hc1, ho1, hc2, ho2, hc3, ho3]
    simp [sqlEq, hid]
  have hexact : other ∈ DuplicateDetector.exact_duplicates db claim := by
    apply List.mem_filter.mpr
    exact ⟨hmem, hpred⟩
  have hne : (DuplicateDetector.exact_duplicates db claim).isEmpty = false := by
    rcases he : DuplicateDetector.exact_duplicates db claim with _ | ⟨a, l⟩
    · rw [he] at hexact
      cases hexact
    · rfl
  simp only [DuplicateDetector.analyze_claim, hc2, hstr, Bool.not_true,
    Bool.false_eq_true, if_false, hne, Bool.not_false, if_true]
  refine ⟨?_, ?_, ?_⟩
  · apply min_eq_right
    have hC := preauth_scan_score_nonneg db claim.id
      (DuplicateDetector.claim_preauth_numbers claim)
    split <;> (try split) <;> (try split) <;> (try split) <;> norm_num <;>
      linarith [hC]
  · refine ⟨_, List.mem_append_left _ (List.mem_append_left _
      (List.mem_append_left _ (List.mem_append_left _
        (List.mem_singleton.mpr rfl)))), ?_⟩
    rfl
  · intro f hf
    simp only [List.mem_append, List.mem_singleton, List.not_mem_nil,
      false_or, or_false] at hf
    rcases hf with (((hf | hf) | hf) | hf)
    · subst hf
      simp
    · revert hf
      split
      · intro hf
        simp only [List.mem_singleton] at hf
        subst hf
        simp
      · intro hf
        simp at hf
    · revert hf
      split
      · split
        · split
          · intro hf
            simp only [List.mem_singleton] at hf
            subst hf
            simp
          · intro hf
            simp at hf
        · intro hf
          simp at hf
      · intro hf
        simp at hf
    · have := preauth_scan_flag_types db claim.id
        (DuplicateDetector.claim_preauth_numbers claim) f hf
      rw [this]
      simp


/-- Witness for C8: two claims with SHA number `"SHA001"`, the same
admission timestamp and claim total 5000. -/
theorem c8_exact_duplicate_witness :
    (dupClaimB ∈ dupDb ∧ dupClaimB.id ≠ dupClaimA.id ∧
     dupClaimA.patient_sha_number = some "SHA001" ∧ "SHA001" ≠ "" ∧
     dupClaimB.patient_sha_number = some "SHA001" ∧
     dupClaimA.visit_admission_date = some 1736467200 ∧
     dupClaimB.visit_admission_date = some 1736467200 ∧
     dupClaimA.total_claim_amount = some 5000 ∧
     dupClaimB.total_claim_amount = some 5000) ∧
    ((DuplicateDetector.analyze_claim dupDb dupClaimA).risk_score = 100 ∧
     (∃ f ∈ (DuplicateDetector.analyze_claim dupDb dupClaimA).flags,
       f.type = "exact_duplicate") ∧
     (∀ f ∈ (DuplicateDetector.analyze_claim dupDb dupClaimA).flags,
       f.type ≠ "rolling_duplicate")) :=
  ⟨⟨List.mem_singleton.mpr rfl, by decide, rfl, by decide, rfl, rfl, rfl,
    rfl, rfl⟩,
   c8_exact_duplicate dupDb dupClaimA dupClaimB "SHA001" 1736467200 5000
     (List.mem_singleton.mpr rfl) (by decide) rfl (by decide) rfl rfl rfl
     rfl rfl⟩

/-- Helper: closed form of the `_compute_benefit_totals` loop. -/
theorem totals_foldl (lines : List ExtractorBenefitLine)
    (acc : SHAClaimExtractor.TotalsAcc) :
    lines.foldl SHAClaimExtractor.totalsStep acc =
      { total_bill := acc.total_bill +
          (lines.filterMap (fun l => l.bill_amount)).sum,
        total_claim := acc.total_claim +
          (lines.filterMap (fun l => l.claim_amount)).sum,
        has_bill := acc.has_bill ||
          !(lines.filterMap (fun l => l.bill_amount)).isEmpty,
        has_claim := acc.has_claim ||
          !(lines.filterMap (fun l => l.claim_amount)).isEmpty } := by
  induction lines generalizing acc with
  | nil => simp
  | cons l rest ih =>
    simp only [List.foldl_cons, ih, List.filterMap_cons]
    cases hb : l.bill_amount <;> cases hc : l.claim_amount <;>
      simp [SHAClaimExtractor.totalsStep, hb, hc, add_assoc]

/-- C9: with no benefit lines both totals are `None`, and in general a
total is `None` when no line carried a parsed amount of that kind, and
otherwise the sum of the present amounts of that kind. -/
theorem c9_benefit_totals :
    SHAClaimExtractor.compute_benefit_totals [] = (none, none) ∧
    ∀ lines : List ExtractorBenefitLine,
      (SHAClaimExtractor.compute_benefit_totals lines).1 =
        (if (lines.filterMap (fun l => l.bill_amount)).isEmpty then none
         else some (lines.filterMap (fun l => l.bill_amount)).sum) ∧
      (SHAClaimExtractor.compute_benefit_totals lines).2 =
        (if (lines.filterMap (fun l => l.claim_amount)).isEmpty then none
         else some (lines.filterMap (fun l => l.claim_amount)).sum) := by
  constructor
  · rfl
  · intro lines
    unfold SHAClaimExtractor.compute_benefit_totals
    rw [totals_foldl]
    constructor
    · cases hb : (lines.filterMap (fun l => l.bill_amount)).isEmpty <;> simp [hb]
    · cases hc : (lines.filterMap (fun l => l.claim_amount)).isEmpty <;> simp [hc]

/-- Helper: a list with a member is not empty. -/
theorem isEmpty_false_of_mem {α : Type} {a : α} {l : List α} (h : a ∈ l) :
    l.isEmpty = false := by
  cases l
  · cases h
  · rfl

set_option maxHeartbeats 4000000 in
/-- C10: an extracted claim with no benefit lines is invalid, and the
error list contains the no-benefit-lines message. -/
theorem c10_empty_benefit_lines (claim : SHAClaimData)
    (h : claim.benefit_lines = []) :
    (SHAClaimExtractor.validate claim).1 = false ∧
    "No benefit lines found in Section 14 (SHA Health Benefits table)" ∈
      (SHAClaimExtractor.validate claim).2 := by
  have hB : "No benefit lines found in Section 14 (SHA Health Benefits table)" ∈
      SHAClaimExtractor.benefitErrors claim := by
    unfold SHAClaimExtractor.benefitErrors
    rw [h]
    simp
  have hermem : "No benefit lines found in Section 14 (SHA Health Benefits table)" ∈
      SHAClaimExtractor.validateErrors claim := by
    unfold SHAClaimExtractor.validateErrors
    exact List.mem_append_left _ (List.mem_append_left _
      (List.mem_append_right _ hB))
  constructor
  · show (SHAClaimExtractor.validateErrors claim).isEmpty = false
    exact isEmpty_false_of_mem hermem
  · exact hermem

/-- Witness for C10: the freshly-constructed claim with an empty
benefit table. -/
theorem c10_empty_benefit_lines_witness :
    ({ benefit_lines := [] } : SHAClaimData).benefit_lines = [] ∧
    ((SHAClaimExtractor.validate { benefit_lines := [] }).1 = false ∧
     "No benefit lines found in Section 14 (SHA Health Benefits table)" ∈
       (SHAClaimExtractor.validate { benefit_lines := [] }).2) :=
  ⟨rfl, c10_empty_benefit_lines { benefit_lines := [] } rfl⟩

end AfyaGuard
